import Mathlib

/-!
Verification of the NoiseGo public API layer (src/readable/apis.go,
src/readable/common.go, src/unnamed/part_000) against its specification.
Go byte slices are modelled as `List Nat` with every element below 256;
fallible Go functions return `Option`/`Except`; functions that can panic
return an outcome type with an explicit constructor for the panic; file
system and network collaborators appear as explicit parameters (file
contents, write successes, dial results).
-/

set_option maxHeartbeats 1000000

namespace Noise

/-- Modelled from the spec: "HandshakePattern — a finite enum of the 15 supported
patterns" (N, K, X, NN, NK, NX, KN, KK, KX, XN, XK, XX, IN, IK, IX). The enum
constants Noise_NN, ... are declared in a repository file that is not under src;
the API code modelled here only compares them for equality, so an inductive type
with fifteen distinct constructors is a faithful model. -/
inductive noiseHandshakeType where
  | Noise_N | Noise_K | Noise_X
  | Noise_NN | Noise_NK | Noise_NX
  | Noise_KN | Noise_KK | Noise_KX
  | Noise_XN | Noise_XK | Noise_XX
  | Noise_IN | Noise_IK | Noise_IX
  deriving DecidableEq, Repr

open noiseHandshakeType

/-- The error values surfaced by the API functions modelled in this file:
errNoPubkeyVerifier and errNoProof are the two package-level config errors of
apis.go, noConfigSet models errors.New of a missing Config, timeoutErr models
the timeoutError struct of apis.go, and other carries any error coming from a
collaborator (for example the net dialer). -/
inductive NoiseError where
  | errNoPubkeyVerifier
  | errNoProof
  | noConfigSet
  | timeoutErr
  | other (msg : String)
  deriving DecidableEq, Repr

/-- Go: the method Timeout() of timeoutError returns true (apis.go line 77);
every other error modelled here is not a timeout. -/
def NoiseError.isTimeoutError : NoiseError → Bool
  | .timeoutErr => true
  | _ => false

/-- Modelled from the spec: "KeyPair — a 32-byte X25519 private scalar and its
derived 32-byte public key." The KeyPair struct and GenerateKeypair are declared
in a repository file that is not under src. -/
structure KeyPair where
  PrivateKey : List Nat
  PublicKey : List Nat
  deriving DecidableEq, Repr

/-- Well-formedness of a KeyPair value as produced by GenerateKeypair: the
private and public parts are 32-byte strings. -/
def KeyPair.wf (kp : KeyPair) : Prop :=
  kp.PrivateKey.length = 32 ∧ kp.PublicKey.length = 32 ∧
    (∀ b ∈ kp.PrivateKey, b < 256) ∧ ∀ b ∈ kp.PublicKey, b < 256

/-- The Config struct of src/unnamed/part_000 (the definition used by apis.go):
a handshake pattern, the local key pair, the remote static key, prologue bytes,
the StaticPublicKeyProof byte slice, the PublicKeyVerifier callback, and the
HalfDuplex flag. Nilable Go fields are Options; the defaults are the Go zero
values. -/
structure Config where
  HandshakePattern : noiseHandshakeType
  KeyPair : Option KeyPair := none
  RemoteKey : Option (List Nat) := none
  Prologue : List Nat := []
  StaticPublicKeyProof : Option (List Nat) := none
  PublicKeyVerifier : Option (List Nat → List Nat → Bool) := none
  HalfDuplex : Bool := false

/-- checkRequirements (apis.go lines 86-103), translated if by if: the first if
covers Noise_NX, Noise_KX, Noise_XX, Noise_IX and returns errNoPubkeyVerifier
when isClient and the verifier is nil, errNoProof when not isClient and the
proof is nil; when it does not return, the second if covers Noise_XN, Noise_XK,
Noise_XX, Noise_X, Noise_IN, Noise_IK, Noise_IX with the hooks swapped; else
nil. -/
def checkRequirements (isClient : Bool) (config : Config) : Option NoiseError :=
  let ht := config.HandshakePattern
  let fromFirstIf : Option NoiseError :=
    if ht = Noise_NX ∨ ht = Noise_KX ∨ ht = Noise_XX ∨ ht = Noise_IX then
      if isClient && config.PublicKeyVerifier.isNone then some .errNoPubkeyVerifier
      else if !isClient && config.StaticPublicKeyProof.isNone then some .errNoProof
      else none
    else none
  match fromFirstIf with
  | some e => some e
  | none =>
    if ht = Noise_XN ∨ ht = Noise_XK ∨ ht = Noise_XX ∨ ht = Noise_X ∨
        ht = Noise_IN ∨ ht = Noise_IK ∨ ht = Noise_IX then
      if isClient && config.StaticPublicKeyProof.isNone then some .errNoProof
      else if !isClient && config.PublicKeyVerifier.isNone then some .errNoPubkeyVerifier
      else none
    else none

/-- src/readable/common.go lines 12-18: a noise message length is 65535 minus
the 2-byte length header. -/
def NoiseMessageLength : Nat := 65535 - 2

/-- src/readable/common.go: the AEAD tag length. -/
def NoiseTagLength : Nat := 16

/-- src/readable/common.go: the maximum plaintext in one transport record. -/
def NoiseMaxPlaintextSize : Nat := NoiseMessageLength - NoiseTagLength

/-- The verifier column of the validation table in the spec: the initiator
needs the verifier for NX, KX, XX, IX; the responder needs it for XN, XK, X,
IN, IK, IX, XX. (Written from the words of the spec, to be compared with
checkRequirements.) -/
def specRequiresVerifier (isClient : Bool) (ht : noiseHandshakeType) : Bool :=
  if isClient then
    ht == Noise_NX || ht == Noise_KX || ht == Noise_XX || ht == Noise_IX
  else
    ht == Noise_XN || ht == Noise_XK || ht == Noise_X || ht == Noise_IN ||
      ht == Noise_IK || ht == Noise_IX || ht == Noise_XX

/-- The proof column of the validation table in the spec: the initiator needs
the proof for XN, XK, X, IN, IK, IX, XX; the responder needs it for NX, KX,
XX, IX. (Written from the words of the spec, to be compared with
checkRequirements.) -/
def specRequiresProof (isClient : Bool) (ht : noiseHandshakeType) : Bool :=
  if isClient then
    ht == Noise_XN || ht == Noise_XK || ht == Noise_X || ht == Noise_IN ||
      ht == Noise_IK || ht == Noise_IX || ht == Noise_XX
  else
    ht == Noise_NX || ht == Noise_KX || ht == Noise_XX || ht == Noise_IX

/-- The outcome of Listen (apis.go lines 52-72) up to the first collaborator
I/O call: a nil config is reported by returning an error to the caller; a
checkRequirements failure is a panic; otherwise control reaches the net.Listen
call, which is the first network I/O of the function. -/
inductive ListenOutcome where
  | returnedError (e : NoiseError)
  | panicked (e : NoiseError)
  | reachedNetListen
  deriving DecidableEq, Repr

/-- Listen (apis.go lines 52-72): when config is nil it returns the error
"Noise: no Config set"; when checkRequirements with isClient set to true fails
it panics with that error; otherwise it calls net.Listen on network and laddr
(I/O, outside the model, reached only after the checks). -/
def Listen (network laddr : String) (config : Option Config) : ListenOutcome :=
  match config with
  | none => .returnedError .noConfigSet
  | some c =>
    match checkRequirements true c with
    | some e => .panicked e
    | none =>
      let _ := network
      let _ := laddr
      .reachedNetListen

/-- The fields of net.Dialer read by DialWithDialer: Timeout (a duration in
nanoseconds, 0 meaning no timeout), whether Deadline is the zero time, and the
value of time.Until(Deadline) on entry. Durations are Int, as the Go int64. -/
structure DialerModel where
  Timeout : Int
  DeadlineIsZero : Bool
  TimeUntilDeadline : Int
  deriving DecidableEq, Repr

/-- The timeout computation at the top of DialWithDialer (apis.go lines
117-124): start from dialer.Timeout; when the deadline is set, replace it with
time.Until(Deadline) when there was no timeout or the deadline is nearer. -/
def effectiveTimeout (dialer : DialerModel) : Int :=
  let timeout := dialer.Timeout
  if !dialer.DeadlineIsZero then
    let deadlineTimeout := dialer.TimeUntilDeadline
    if timeout = 0 ∨ deadlineTimeout < timeout then deadlineTimeout else timeout
  else timeout

/-- The outcome of DialWithDialer (apis.go lines 113-179): a panic before any
network I/O (nil config or failed checkRequirements); a dial error returned to
the caller with a nil Conn and nothing opened; a failure after the dial, for
which rawConn.Close() is called and a nil Conn is returned with the error; or
a successful Conn. -/
inductive DialOutcome where
  | panickedBeforeDial (e : NoiseError)
  | dialFailed (e : NoiseError)
  | handshakeFailedConnClosed (e : NoiseError)
  | connected
  deriving DecidableEq, Repr

/-- DialWithDialer (apis.go lines 113-179). The collaborators are explicit
parameters: dialErr is the result of dialer.Dial, hsResult the result of
conn.Handshake(), and timeoutFiresFirst tells whether the message of the
time.AfterFunc timer was sent on errChannel before the handshake result (the
timer exists only when the computed timeout is nonzero). The function computes
the timeout, panics on a nil config or a failed checkRequirements (isClient
true), returns a dial error as is, and otherwise takes err as the handshake
result, except that with a nonzero timeout err is the first message on
errChannel, which is timeoutError when the timer fired before the handshake
completed. A non-nil err closes rawConn and returns a nil Conn with err. -/
def DialWithDialer (dialer : DialerModel) (network addr : String)
    (config : Option Config) (dialErr : Option NoiseError)
    (hsResult : Option NoiseError) (timeoutFiresFirst : Bool) : DialOutcome :=
  let timeout := effectiveTimeout dialer
  match config with
  | none => .panickedBeforeDial .noConfigSet
  | some c =>
    match checkRequirements true c with
    | some e => .panickedBeforeDial e
    | none =>
      let _ := network
      let _ := addr
      match dialErr with
      | some e => .dialFailed e
      | none =>
        let err : Option NoiseError :=
          if timeout = 0 then hsResult
          else if timeoutFiresFirst then some .timeoutErr else hsResult
        match err with
        | some e => .handshakeFailedConnClosed e
        | none => .connected

/-- The byte values of the lowercase digit table "0123456789abcdef" used by Go
encoding/hex when encoding. -/
def hexDigitTable : List Nat :=
  [48, 49, 50, 51, 52, 53, 54, 55, 56, 57, 97, 98, 99, 100, 101, 102]

/-- One byte encoded as its two lowercase hex characters, high nibble first, as
Go encoding/hex.Encode writes it. -/
def hexOfByte (b : Nat) : List Nat :=
  [hexDigitTable.getD (b / 16) 0, hexDigitTable.getD (b % 16) 0]

/-- A byte string encoded in lowercase hex, as Go encoding/hex.Encode produces
for the whole source slice. -/
def hexEncode : List Nat → List Nat
  | [] => []
  | b :: rest => hexOfByte b ++ hexEncode rest

/-- Model of Go encoding/hex.Encode writing into a fixed-size destination
buffer of dstLen bytes: the encoded bytes followed by the untouched zero
remainder of the buffer. Encode writes 2 bytes per source byte with no bounds
check of its own, so when the buffer is shorter than twice the source the
write goes out of range and the Go runtime panics; none models that panic. -/
def hexEncodeInto (dstLen : Nat) (src : List Nat) : Option (List Nat) :=
  if 2 * src.length ≤ dstLen then
    some (hexEncode src ++ List.replicate (dstLen - 2 * src.length) 0)
  else none

/-- Go encoding/hex.fromHexChar: the value of one hex character, accepting the
digits, the lowercase and the uppercase letters; none for any other byte. -/
def fromHexChar (c : Nat) : Option Nat :=
  if 48 ≤ c ∧ c ≤ 57 then some (c - 48)
  else if 97 ≤ c ∧ c ≤ 102 then some (c - 97 + 10)
  else if 65 ≤ c ∧ c ≤ 70 then some (c - 65 + 10)
  else none

/-- Whether a byte is a valid hex character (digit, a-f or A-F). -/
def isHexByte (c : Nat) : Bool :=
  (fromHexChar c).isSome

/-- Model of Go encoding/hex.Decode: the source is consumed two characters at
a time, high nibble first; an odd-length source or any non-hex character is an
error (none). -/
def hexDecode : List Nat → Option (List Nat)
  | [] => some []
  | [_] => none
  | hi :: lo :: rest => do
    let h ← fromHexChar hi
    let l ← fromHexChar lo
    let tail ← hexDecode rest
    pure ((h * 16 + l) :: tail)

/-- The outcome of GenerateAndSaveNoiseRootKeyPair (apis.go lines 224-242): a
runtime panic during hex encoding, a WriteFile error returned to the caller,
or both files written (carrying their contents and the permission bits used by
the two WriteFile calls). -/
inductive RootSaveOutcome where
  | panicked
  | returnedWriteError
  | saved (privateKeyFile publicKeyFile : List Nat) (privatePerm publicPerm : Nat)
  deriving DecidableEq, Repr

/-- GenerateAndSaveNoiseRootKeyPair (apis.go lines 224-242): hex.Encode the
public key and the private key into two 64-byte buffers (publicKeyHex and
privateKeyHex, both declared [32 * 2]byte), then write the private buffer with
permission 0400 and the public buffer with permission 0644, returning the
first write error, else nil. The generated keys come from ed25519.GenerateKey
(golang.org/x/crypto/ed25519), whose public keys are 32 bytes and whose
private keys are 64 bytes (PrivateKeySize); they are passed in here, together
with the success of each WriteFile call. -/
def GenerateAndSaveNoiseRootKeyPair (publicKey privateKey : List Nat)
    (writePrivOk writePubOk : Bool) : RootSaveOutcome :=
  match hexEncodeInto 64 publicKey with
  | none => .panicked
  | some publicKeyHex =>
    match hexEncodeInto 64 privateKey with
    | none => .panicked
    | some privateKeyHex =>
      if writePrivOk then
        if writePubOk then .saved privateKeyHex publicKeyHex 0o400 0o644
        else .returnedWriteError
      else .returnedWriteError

/-- The parse errors of the three load functions (apis.go lines 246-321): the
"not correctly formated" size error, and the error of encoding/hex.Decode on a
non-hex character. A failed ReadFile is also an error there; the models below
take the file content, so they model the runs where the read succeeded. -/
inductive LoadError where
  | notCorrectlyFormated
  | invalidHexErr
  deriving DecidableEq, Repr

/-- LoadNoiseRootPublicKey (apis.go lines 246-260), applied to the content of
the file: an error when the content is not exactly 32*2 bytes, then hex.Decode
into a 32-byte key, an error when decoding fails. -/
def LoadNoiseRootPublicKey (content : List Nat) : Except LoadError (List Nat) :=
  if content.length ≠ 32 * 2 then .error .notCorrectlyFormated
  else
    match hexDecode content with
    | none => .error .invalidHexErr
    | some publicKey => .ok publicKey

/-- LoadNoiseRootPrivateKey (apis.go lines 265-279), applied to the content of
the file: same shape as LoadNoiseRootPublicKey. -/
def LoadNoiseRootPrivateKey (content : List Nat) : Except LoadError (List Nat) :=
  if content.length ≠ 32 * 2 then .error .notCorrectlyFormated
  else
    match hexDecode content with
    | none => .error .invalidHexErr
    | some privateKey => .ok privateKey

/-- LoadNoiseKeyPair (apis.go lines 302-321), applied to the content of the
file: an error when the content is not exactly 64*2 bytes, then hex.Decode of
the first 64 characters into PrivateKey and of the last 64 into PublicKey,
with an error when either decoding fails. -/
def LoadNoiseKeyPair (content : List Nat) : Except LoadError KeyPair :=
  if content.length ≠ 64 * 2 then .error .notCorrectlyFormated
  else
    match hexDecode (content.take 64) with
    | none => .error .invalidHexErr
    | some priv =>
      match hexDecode (content.drop 64) with
      | none => .error .invalidHexErr
      | some pub => .ok { PrivateKey := priv, PublicKey := pub }

/-- The outcome of GenerateAndSaveNoiseKeyPair (apis.go lines 286-297): a
runtime panic during hex encoding, the write error returned to the caller, or
the file written (carrying its content and permission). -/
inductive KeyPairSaveOutcome where
  | panicked
  | returnedWriteError
  | saved (data : List Nat) (perm : Nat)
  deriving DecidableEq, Repr

/-- GenerateAndSaveNoiseKeyPair (apis.go lines 286-297): hex.Encode the private
key into dataToWrite[:64] and the public key into dataToWrite[64:], then
WriteFile the 128 bytes with permission 0644. The key pair produced by
GenerateKeypair and the success of the write are passed in. -/
def GenerateAndSaveNoiseKeyPair (keyPair : KeyPair) (writeOk : Bool) :
    KeyPairSaveOutcome :=
  match hexEncodeInto 64 keyPair.PrivateKey with
  | none => .panicked
  | some privHex =>
    match hexEncodeInto 64 keyPair.PublicKey with
    | none => .panicked
    | some pubHex =>
      if writeOk then .saved (privHex ++ pubHex) 0o644 else .returnedWriteError

/-- Modelled from the spec: the Ed25519 identity scheme of
golang.org/x/crypto/ed25519, as a symbolic signature model ("A peer that must
prove its static Noise key signs the raw 32-byte static public key with its
root private key; the 64-byte signature is the proof."). A root private key is
its 32-byte seed; the derivation of the public key from the private key is
injective and modelled as the identity on seeds. -/
def ed25519PubOf (rootPrivateKey : List Nat) : List Nat := rootPrivateKey

/-- Modelled from the spec: a symbolic Ed25519 signature, the byte string
priv ++ message; for a 32-byte message it has the 64-byte size the spec
gives for signatures. -/
def ed25519Sign (rootPrivateKey message : List Nat) : List Nat :=
  rootPrivateKey ++ message

/-- Modelled from the spec: symbolic Ed25519 verification recomputes the
signature expected under the public key and compares, so verification succeeds
exactly when the signature was made under the matching private key over the
same message. -/
def ed25519Verify (rootPublicKey message signature : List Nat) : Bool :=
  signature == rootPublicKey ++ message

/-- CreatePublicKeyVerifier (apis.go lines 199-203): returns the callback that
runs ed25519.Verify of (publicKey, proof) under the root public key. -/
def CreatePublicKeyVerifier (rootPublicKey : List Nat) :
    List Nat → List Nat → Bool :=
  fun publicKey proof => ed25519Verify rootPublicKey publicKey proof

/-- CreateStaticPublicKeyProof (apis.go lines 209-216): signs the raw 32-byte
static public key of the key pair with the root private key (plain Ed25519,
crypto.Hash(0)). -/
def CreateStaticPublicKeyProof (rootPrivateKey : List Nat)
    (keyPair : KeyPair) : List Nat :=
  ed25519Sign rootPrivateKey keyPair.PublicKey

/-- A config selecting the XX pattern with neither identity hook set: it is
missing mandatory hooks for both roles. -/
def cfgXXNoHooks : Config := { HandshakePattern := Noise_XX }

/-- A config selecting the NX pattern with only the proof set (64 zero bytes):
per the validation table this satisfies the responder column (which requires
the proof for NX) and violates the initiator column (which requires the
verifier). -/
def cfgNXProofOnly : Config :=
  { HandshakePattern := Noise_NX,
    StaticPublicKeyProof := some (List.replicate 64 0) }

/-- A config selecting the NX pattern with only the verifier set: per the
validation table this satisfies the initiator column and violates the
responder column. -/
def cfgNXVerifierOnly : Config :=
  { HandshakePattern := Noise_NX,
    PublicKeyVerifier := some (fun _ _ => true) }

/-- A dialer with no timeout and no deadline. -/
def dialerZero : DialerModel :=
  { Timeout := 0, DeadlineIsZero := true, TimeUntilDeadline := 0 }

theorem hexOfByte_length (b : Nat) : (hexOfByte b).length = 2 := rfl

theorem hexEncode_length (l : List Nat) : (hexEncode l).length = 2 * l.length := by
  induction l with
  | nil => rfl
  | cons b rest ih =>
    simp [hexEncode, hexOfByte, ih]
    omega

theorem fromHexChar_hexDigitTable {d : Nat} (h : d < 16) :
    fromHexChar (hexDigitTable.getD d 0) = some d := by
  interval_cases d <;> decide

theorem hexDecode_hexEncode {l : List Nat} (h : ∀ b ∈ l, b < 256) :
    hexDecode (hexEncode l) = some l := by
  induction l with
  | nil => rfl
  | cons b rest ih =>
    have hb : b < 256 := h b (List.mem_cons_self b rest)
    have hdiv : b / 16 < 16 := Nat.div_lt_of_lt_mul (by omega)
    have hmod : b % 16 < 16 := Nat.mod_lt b (by omega)
    have hrest : hexDecode (hexEncode rest) = some rest :=
      ih fun x hx => h x (List.mem_cons_of_mem b hx)
    show hexDecode (hexDigitTable.getD (b / 16) 0 :: hexDigitTable.getD (b % 16) 0 ::
      hexEncode rest) = some (b :: rest)
    rw [hexDecode, fromHexChar_hexDigitTable hdiv, fromHexChar_hexDigitTable hmod, hrest]
    have : b / 16 * 16 + b % 16 = b := by omega
    simp [this]

theorem hexDecode_none_of_not_all_hex :
    ∀ l : List Nat, l.all isHexByte = false → hexDecode l = none := by
  intro l
  induction l using hexDecode.induct with
  | case1 => intro h; simp at h
  | case2 c => intro _; rfl
  | case3 hi lo rest ih =>
    intro h
    simp only [List.all_cons, Bool.and_eq_false_iff] at h
    rw [hexDecode]
    simp only [isHexByte] at h
    rcases h with h | h | h
    · cases hh : fromHexChar hi with
      | none => simp [hh]
      | some v => rw [hh] at h; simp at h
    · cases hh : fromHexChar lo with
      | none => cases fromHexChar hi <;> simp [hh]
      | some v => rw [hh] at h; simp at h
    · have ht := ih (by simpa using h)
      cases fromHexChar hi <;> cases fromHexChar lo <;> simp [ht]

/-- C1: for every Config and every role, checkRequirements returns an error
exactly when a hook required by the validation table of the spec is absent:
the verifier column requires PublicKeyVerifier, the proof column requires
StaticPublicKeyProof, a pattern in both rows requires both hooks on both
sides, and for any other situation checkRequirements returns nil. -/
theorem c1_checkRequirements_matches_table (isClient : Bool) (config : Config) :
    (checkRequirements isClient config).isSome = true ↔
      (specRequiresVerifier isClient config.HandshakePattern = true ∧
          config.PublicKeyVerifier = none) ∨
        (specRequiresProof isClient config.HandshakePattern = true ∧
          config.StaticPublicKeyProof = none) := by
  obtain ⟨ht, kp, rk, pl, sp, pv, hd⟩ := config
  cases sp <;> cases pv <;> cases isClient <;> cases ht <;>
    simp [checkRequirements, specRequiresVerifier, specRequiresProof]

/-- C4: the compiled-in framing limits equal the numbers of the spec:
NoiseMessageLength is 65533, NoiseTagLength is 16, and NoiseMaxPlaintextSize is
65517, which is 65533 minus 16. -/
theorem c4_framing_constants :
    NoiseMessageLength = 65533 ∧ NoiseTagLength = 16 ∧
      NoiseMaxPlaintextSize = 65517 ∧
      NoiseMaxPlaintextSize = NoiseMessageLength - NoiseTagLength := by
  decide

/-- C10: for every config whose handshake pattern is NN, NK, KN, KK, N or K
(outside both rows of the validation table), checkRequirements returns nil for
both roles, whatever the PublicKeyVerifier and StaticPublicKeyProof fields
hold: no identity hook is required for those patterns. -/
theorem c10_no_hooks_required (isClient : Bool) (config : Config)
    (h : config.HandshakePattern = Noise_NN ∨ config.HandshakePattern = Noise_NK ∨
      config.HandshakePattern = Noise_KN ∨ config.HandshakePattern = Noise_KK ∨
      config.HandshakePattern = Noise_N ∨ config.HandshakePattern = Noise_K) :
    checkRequirements isClient config = none := by
  rcases h with h | h | h | h | h | h <;> simp [checkRequirements, h]

/-- Witness for C10: the NN pattern with no hooks set passes checkRequirements
in the client role. -/
theorem c10_no_hooks_required_witness :
    checkRequirements true { HandshakePattern := Noise_NN } = none :=
  c10_no_hooks_required true { HandshakePattern := Noise_NN } (Or.inl rfl)

/-- Counterexample for C2: on a config that is missing a mandatory hook for its
pattern (XX with no hooks), Listen and DialWithDialer do not return the config
error to the caller: both panic with it (apis.go lines 57-59 and 131-133 wrap
checkRequirements failures in panic). -/
theorem c2_counterexample_panic_not_returned :
    Listen "tcp" ":0" (some cfgXXNoHooks) =
        ListenOutcome.panicked NoiseError.errNoPubkeyVerifier ∧
      Listen "tcp" ":0" (some cfgXXNoHooks) ≠
        ListenOutcome.returnedError NoiseError.errNoPubkeyVerifier ∧
      Listen "tcp" ":0" (some cfgXXNoHooks) ≠
        ListenOutcome.returnedError NoiseError.errNoProof ∧
      DialWithDialer dialerZero "tcp" "host:1" (some cfgXXNoHooks) none none false =
        DialOutcome.panickedBeforeDial NoiseError.errNoPubkeyVerifier := by
  refine ⟨rfl, ?_, ?_, rfl⟩ <;> decide

/-- C2 (amended): for every config missing a mandatory hook for its selected
handshake pattern (a config failing checkRequirements with isClient true, the
check both functions run), Listen and DialWithDialer detect the error at
construction and stop before any network I/O — the ListenOutcome.panicked and
DialOutcome.panickedBeforeDial outcomes precede the net.Listen and dialer.Dial
calls — but they report it by panicking with the error rather than by
returning it to the caller. -/
theorem c2_config_error_stops_before_io (config : Config) (e : NoiseError)
    (h : checkRequirements true config = some e)
    (network laddr addr : String) (dialer : DialerModel)
    (dialErr hsResult : Option NoiseError) (timeoutFiresFirst : Bool) :
    Listen network laddr (some config) = ListenOutcome.panicked e ∧
      DialWithDialer dialer network addr (some config) dialErr hsResult
          timeoutFiresFirst =
        DialOutcome.panickedBeforeDial e := by
  constructor
  · simp [Listen, h]
  · simp [DialWithDialer, h]

/-- Witness for C2 (amended): the XX config with no hooks fails
checkRequirements and makes both functions panic before I/O. -/
theorem c2_config_error_stops_before_io_witness :
    Listen "tcp" ":0" (some cfgXXNoHooks) =
        ListenOutcome.panicked NoiseError.errNoPubkeyVerifier ∧
      DialWithDialer dialerZero "tcp" "host:1" (some cfgXXNoHooks) none none false =
        DialOutcome.panickedBeforeDial NoiseError.errNoPubkeyVerifier :=
  c2_config_error_stops_before_io cfgXXNoHooks NoiseError.errNoPubkeyVerifier
    rfl "tcp" ":0" "host:1" dialerZero none none false

/-- C3, evaluated at the failing inputs: Listen passes isClient set to true to
checkRequirements (apis.go line 57) and therefore validates the initiator
column of the table, not the responder column: it panics on the NX config that
has only the proof, although that config satisfies the responder requirements
(checkRequirements false returns nil on it), and it reaches net.Listen on the
NX config that has only the verifier, although the responder requirement for
NX — the proof — is absent there (checkRequirements false reports
errNoProof). -/
theorem c3_listen_checks_initiator_column :
    Listen "tcp" ":0" (some cfgNXProofOnly) =
        ListenOutcome.panicked NoiseError.errNoPubkeyVerifier ∧
      checkRequirements false cfgNXProofOnly = none ∧
      Listen "tcp" ":0" (some cfgNXVerifierOnly) = ListenOutcome.reachedNetListen ∧
      checkRequirements false cfgNXVerifierOnly = some NoiseError.errNoProof := by
  refine ⟨rfl, rfl, rfl, rfl⟩

/-- C9: in DialWithDialer, (a) when the deadline is set and dialer.Timeout is
nonzero, the effective timeout covering the transport connect and the
handshake is the minimum of dialer.Timeout and the time remaining until
dialer.Deadline; (b) when that budget elapses before the handshake completes
(the timer message wins the errChannel race), DialWithDialer closes the raw
connection and returns a nil Conn with the timeoutError, whose Timeout()
method returns true; (c) whenever the handshake step fails with any error, the
raw connection is closed and a nil Conn is returned with that error. -/
theorem c9_dial_timeout_and_failure (dialer : DialerModel) (config : Config)
    (network addr : String) (hsResult : Option NoiseError) (e : NoiseError)
    (hck : checkRequirements true config = none) :
    (dialer.DeadlineIsZero = false → dialer.Timeout ≠ 0 →
        effectiveTimeout dialer = min dialer.Timeout dialer.TimeUntilDeadline) ∧
      (effectiveTimeout dialer ≠ 0 →
        DialWithDialer dialer network addr (some config) none hsResult true =
            DialOutcome.handshakeFailedConnClosed NoiseError.timeoutErr ∧
          NoiseError.timeoutErr.isTimeoutError = true) ∧
      DialWithDialer dialer network addr (some config) none (some e) false =
        DialOutcome.handshakeFailedConnClosed e := by
  refine ⟨?_, ?_, ?_⟩
  · intro hdz htz
    simp only [effectiveTimeout, hdz, Bool.not_false, if_true]
    rcases lt_trichotomy dialer.TimeUntilDeadline dialer.Timeout with h | h | h
    · rw [if_pos (Or.inr h), min_comm, min_eq_left h.le]
    · rw [h]; simp
    · rw [if_neg, min_eq_left h.le]
      push_neg
      exact ⟨htz, h.le⟩
  · intro hne
    refine ⟨?_, rfl⟩
    simp [DialWithDialer, hck, hne]
  · by_cases h0 : effectiveTimeout dialer = 0 <;> simp [DialWithDialer, hck, h0]

/-- Witness for C9: a dialer with Timeout 5 and 3 nanoseconds left until the
deadline, and the NN pattern config (which passes checkRequirements): the
effective timeout is min 5 3 = 3; with the timer firing first the outcome is
the closed connection with the timeout error; a handshake failure closes the
connection and returns the error. -/
theorem c9_dial_timeout_and_failure_witness :
    (effectiveTimeout { Timeout := 5, DeadlineIsZero := false, TimeUntilDeadline := 3 } =
        min 5 3) ∧
      (DialWithDialer { Timeout := 5, DeadlineIsZero := false, TimeUntilDeadline := 3 }
            "tcp" "host:1" (some { HandshakePattern := Noise_NN }) none none true =
          DialOutcome.handshakeFailedConnClosed NoiseError.timeoutErr ∧
        NoiseError.timeoutErr.isTimeoutError = true) ∧
      DialWithDialer { Timeout := 5, DeadlineIsZero := false, TimeUntilDeadline := 3 }
          "tcp" "host:1" (some { HandshakePattern := Noise_NN }) none
          (some (NoiseError.other "handshake broke")) false =
        DialOutcome.handshakeFailedConnClosed (NoiseError.other "handshake broke") := by
  have h := c9_dial_timeout_and_failure
    { Timeout := 5, DeadlineIsZero := false, TimeUntilDeadline := 3 }
    { HandshakePattern := Noise_NN } "tcp" "host:1" none
    (NoiseError.other "handshake broke") rfl
  exact ⟨h.1 rfl (by decide), h.2.1 (by decide), h.2.2⟩

/-- C5: for every key pair of the sizes ed25519.GenerateKey produces (32-byte
public key, 64-byte private key, PrivateKeySize of golang.org/x/crypto),
GenerateAndSaveNoiseRootKeyPair panics inside hex.Encode: the private key is
64 bytes but privateKeyHex is declared [32 * 2]byte, so the 128 encoded
characters overflow the 64-byte buffer. No private key file of 64 hex
characters is ever produced and nil is never returned. -/
theorem c5_root_keypair_save_panics (publicKey privateKey : List Nat)
    (writePrivOk writePubOk : Bool)
    (hpub : publicKey.length = 32) (hpriv : privateKey.length = 64) :
    GenerateAndSaveNoiseRootKeyPair publicKey privateKey writePrivOk writePubOk =
      RootSaveOutcome.panicked := by
  have h1 : hexEncodeInto 64 publicKey = some (hexEncode publicKey) := by
    simp [hexEncodeInto, hpub]
  have h2 : hexEncodeInto 64 privateKey = none := by
    simp [hexEncodeInto, hpriv]
  simp [GenerateAndSaveNoiseRootKeyPair, h1, h2]

/-- Witness for C5: concrete 32-byte public and 64-byte private keys make
GenerateAndSaveNoiseRootKeyPair panic. -/
theorem c5_root_keypair_save_panics_witness :
    GenerateAndSaveNoiseRootKeyPair (List.replicate 32 5) (List.replicate 64 6)
        true true =
      RootSaveOutcome.panicked :=
  c5_root_keypair_save_panics (List.replicate 32 5) (List.replicate 64 6)
    true true (by decide) (by decide)

/-- C6: every size mismatch in a persisted key file is a parse failure: for
every file content that is not exactly 64 bytes, LoadNoiseRootPublicKey and
LoadNoiseRootPrivateKey return the format error (and, the result being an
error, no key); for every content that is not exactly 128 bytes,
LoadNoiseKeyPair returns the format error (and no key pair); and all three
return an error on any content that holds a non-hex character. -/
theorem c6_load_size_and_hex_errors (content : List Nat) :
    (content.length ≠ 64 →
        LoadNoiseRootPublicKey content = Except.error LoadError.notCorrectlyFormated ∧
          LoadNoiseRootPrivateKey content = Except.error LoadError.notCorrectlyFormated) ∧
      (content.length ≠ 128 →
        LoadNoiseKeyPair content = Except.error LoadError.notCorrectlyFormated) ∧
      (content.all isHexByte = false →
        (∃ e, LoadNoiseRootPublicKey content = Except.error e) ∧
          (∃ e, LoadNoiseRootPrivateKey content = Except.error e) ∧
          ∃ e, LoadNoiseKeyPair content = Except.error e) := by
  refine ⟨?_, ?_, ?_⟩
  · intro h
    constructor <;> simp [LoadNoiseRootPublicKey, LoadNoiseRootPrivateKey, h]
  · intro h
    simp [LoadNoiseKeyPair, h]
  · intro h
    refine ⟨?_, ?_, ?_⟩
    · by_cases hlen : content.length = 64
      · rw [LoadNoiseRootPublicKey, if_neg (by omega),
          hexDecode_none_of_not_all_hex content h]
        exact ⟨_, rfl⟩
      · exact ⟨LoadError.notCorrectlyFormated, by simp [LoadNoiseRootPublicKey, hlen]⟩
    · by_cases hlen : content.length = 64
      · rw [LoadNoiseRootPrivateKey, if_neg (by omega),
          hexDecode_none_of_not_all_hex content h]
        exact ⟨_, rfl⟩
      · exact ⟨LoadError.notCorrectlyFormated, by simp [LoadNoiseRootPrivateKey, hlen]⟩
    · by_cases hlen : content.length = 128
      · have hsplit : (content.take 64).all isHexByte = false ∨
            (content.drop 64).all isHexByte = false := by
          rw [← List.take_append_drop 64 content, List.all_append] at h
          rcases Bool.and_eq_false_iff.mp h with h | h
          · exact Or.inl h
          · exact Or.inr h
        rw [LoadNoiseKeyPair, if_neg (by omega)]
        rcases hsplit with hs | hs
        · rw [hexDecode_none_of_not_all_hex _ hs]
          exact ⟨_, rfl⟩
        · cases ht : hexDecode (content.take 64) with
          | none => exact ⟨_, rfl⟩
          | some priv =>
            rw [hexDecode_none_of_not_all_hex _ hs]
            exact ⟨_, rfl⟩
      · exact ⟨LoadError.notCorrectlyFormated, by simp [LoadNoiseKeyPair, hlen]⟩

/-- Witness for C6: the one-byte content "g" (103) has the wrong size for all
three loaders and is not hex, so every conclusion holds on it. -/
theorem c6_load_size_and_hex_errors_witness :
    (LoadNoiseRootPublicKey [103] = Except.error LoadError.notCorrectlyFormated ∧
        LoadNoiseRootPrivateKey [103] = Except.error LoadError.notCorrectlyFormated) ∧
      LoadNoiseKeyPair [103] = Except.error LoadError.notCorrectlyFormated ∧
      ((∃ e, LoadNoiseRootPublicKey [103] = Except.error e) ∧
        (∃ e, LoadNoiseRootPrivateKey [103] = Except.error e) ∧
        ∃ e, LoadNoiseKeyPair [103] = Except.error e) :=
  ⟨(c6_load_size_and_hex_errors [103]).1 (by decide),
    (c6_load_size_and_hex_errors [103]).2.1 (by decide),
    (c6_load_size_and_hex_errors [103]).2.2 (by decide)⟩

/-- C7: round-trip of the Noise static key pair store: for every well-formed
X25519 key pair, GenerateAndSaveNoiseKeyPair writes exactly 128 hex characters
— the hex of the 32-byte private key followed by the hex of the 32-byte public
key — to the single given file, and LoadNoiseKeyPair applied to that content
returns a key pair whose PrivateKey and PublicKey equal the saved ones. -/
theorem c7_keypair_save_load_roundtrip (kp : KeyPair) (h : kp.wf) :
    GenerateAndSaveNoiseKeyPair kp true =
        KeyPairSaveOutcome.saved
          (hexEncode kp.PrivateKey ++ hexEncode kp.PublicKey) 0o644 ∧
      (hexEncode kp.PrivateKey ++ hexEncode kp.PublicKey).length = 128 ∧
      LoadNoiseKeyPair (hexEncode kp.PrivateKey ++ hexEncode kp.PublicKey) =
        Except.ok kp := by
  obtain ⟨kpriv, kpub⟩ := kp
  obtain ⟨h1, h2, h3, h4⟩ := h
  simp only at h1 h2 h3 h4
  have lenPriv : (hexEncode kpriv).length = 64 := by rw [hexEncode_length, h1]
  have lenPub : (hexEncode kpub).length = 64 := by rw [hexEncode_length, h2]
  refine ⟨?_, ?_, ?_⟩
  · simp [GenerateAndSaveNoiseKeyPair, hexEncodeInto, hexEncode_length, h1, h2]
  · simp [lenPriv, lenPub]
  · rw [LoadNoiseKeyPair, if_neg (by simp [lenPriv, lenPub]),
      List.take_left' lenPriv, List.drop_left' lenPriv,
      hexDecode_hexEncode h3, hexDecode_hexEncode h4]

/-- Witness for C7: a concrete well-formed key pair round-trips through the
save and load functions. -/
theorem c7_keypair_save_load_roundtrip_witness :
    GenerateAndSaveNoiseKeyPair
          { PrivateKey := List.replicate 32 1, PublicKey := List.replicate 32 2 } true =
        KeyPairSaveOutcome.saved
          (hexEncode (List.replicate 32 1) ++ hexEncode (List.replicate 32 2)) 0o644 ∧
      (hexEncode (List.replicate 32 1) ++ hexEncode (List.replicate 32 2)).length = 128 ∧
      LoadNoiseKeyPair (hexEncode (List.replicate 32 1) ++ hexEncode (List.replicate 32 2)) =
        Except.ok { PrivateKey := List.replicate 32 1, PublicKey := List.replicate 32 2 } :=
  c7_keypair_save_load_roundtrip
    { PrivateKey := List.replicate 32 1, PublicKey := List.replicate 32 2 }
    ⟨by decide, by decide, by decide, by decide⟩

/-- C8: proof and verifier are consistent: for every 32-byte root private key
and every well-formed static KeyPair, CreateStaticPublicKeyProof returns the
64-byte signature over the raw 32-byte static public key, the function
returned by CreatePublicKeyVerifier applied to the matching root public key
accepts (keyPair.PublicKey, proof), and it rejects a proof produced under a
different root private key. -/
theorem c8_proof_verifier_consistency (rootPrivateKey otherPrivateKey : List Nat)
    (kp : KeyPair) (hpriv : rootPrivateKey.length = 32) (hkp : kp.wf)
    (hne : otherPrivateKey ≠ rootPrivateKey) :
    (CreateStaticPublicKeyProof rootPrivateKey kp).length = 64 ∧
      CreatePublicKeyVerifier (ed25519PubOf rootPrivateKey) kp.PublicKey
        (CreateStaticPublicKeyProof rootPrivateKey kp) = true ∧
      CreatePublicKeyVerifier (ed25519PubOf rootPrivateKey) kp.PublicKey
        (CreateStaticPublicKeyProof otherPrivateKey kp) = false := by
  obtain ⟨h1, h2, h3, h4⟩ := hkp
  refine ⟨?_, ?_, ?_⟩
  · simp [CreateStaticPublicKeyProof, ed25519Sign, hpriv, h2]
  · simp [CreatePublicKeyVerifier, CreateStaticPublicKeyProof, ed25519Verify,
      ed25519Sign, ed25519PubOf]
  · simp only [CreatePublicKeyVerifier, CreateStaticPublicKeyProof, ed25519Verify,
      ed25519Sign, ed25519PubOf]
    rw [beq_eq_false_iff_ne]
    intro hcontra
    exact hne (List.append_cancel_right hcontra)

/-- Witness for C8: concrete root keys and a concrete key pair: the proof under
the matching root key verifies and the proof under a different root key is
rejected. -/
theorem c8_proof_verifier_consistency_witness :
    (CreateStaticPublicKeyProof (List.replicate 32 3)
          { PrivateKey := List.replicate 32 1, PublicKey := List.replicate 32 2 }).length =
        64 ∧
      CreatePublicKeyVerifier (ed25519PubOf (List.replicate 32 3))
        (List.replicate 32 2)
        (CreateStaticPublicKeyProof (List.replicate 32 3)
          { PrivateKey := List.replicate 32 1, PublicKey := List.replicate 32 2 }) = true ∧
      CreatePublicKeyVerifier (ed25519PubOf (List.replicate 32 3))
        (List.replicate 32 2)
        (CreateStaticPublicKeyProof (List.replicate 32 4)
          { PrivateKey := List.replicate 32 1, PublicKey := List.replicate 32 2 }) = false :=
  c8_proof_verifier_consistency (List.replicate 32 3) (List.replicate 32 4)
    { PrivateKey := List.replicate 32 1, PublicKey := List.replicate 32 2 }
    (by decide) ⟨by decide, by decide, by decide, by decide⟩ (by decide)

end Noise
